import Mathlib

/-!
Shallow embedding of the TruContext PNG→SVG conversion scripts.

The repository has two source files, `scripts/convert.py` (embeds the PNG as a
base64 data URI in an SVG wrapper) and `scripts/convert_png_to_svg.py` (the
contour-based vectorization pipeline).  The scripts' own logic — candidate
binarization generation and selection, contour dedup/filter/sort, shape
classification, SVG string synthesis, validation, fallback, and the per-image
batch loop — is translated below.  The OpenCV / PIL / scikit-learn primitives
the scripts call (thresholding, contour finding, Douglas–Peucker, k-means,
PNG encoding, …) are kept abstract, as fields of the `CV` / `ColorPrims` /
`ImgLib` parameter structures; theorems quantify over them.  Floating point
arithmetic is modelled by exact rationals (`np.pi` appears as the exact
rational value of the IEEE-754 double nearest π).  File-system side effects
are modelled by returning the strings that the scripts write.
-/

namespace IconConv

/-- A point of an OpenCV contour: integer pixel coordinates. -/
abbrev Pt : Type := Int × Int

/-- An OpenCV contour (as returned by `cv2.findContours`): a sequence of points. -/
abbrev Contour : Type := List Pt

/-- An RGB color triple, as produced by `tuple(map(int, center))`. -/
abbrev Color : Type := Int × Int × Int

/-- Models `c.ravel()` on a contour array of shape (n,1,2): the flattened coordinates. -/
def flattenC (c : Contour) : List Int := c.flatMap (fun p => [p.1, p.2])

/-- The consecutive point pairs of the closed polygon through the contour. -/
def cyclePairs : Contour → List (Pt × Pt)
  | [] => []
  | p :: ps => (p :: ps).zip (ps ++ [p])

/-- Doubled signed area of the closed polygon (Green formula). -/
def shoelace (c : Contour) : Int :=
  (cyclePairs c).foldl (fun acc pq => acc + (pq.1.1 * pq.2.2 - pq.2.1 * pq.1.2)) 0

/-- Models `cv2.contourArea`: the absolute polygon area by the shoelace formula. -/
def contourAreaQ (c : Contour) : ℚ := ((shoelace c).natAbs : ℚ) / 2

/-- An upright pixel rectangle, as returned by `cv2.boundingRect`. -/
structure Rect where
  x : Int
  y : Int
  w : Int
  h : Int
deriving DecidableEq, Repr

/-- Models `cv2.boundingRect`: minimal upright rectangle containing the points
(width and height use OpenCV's +1 pixel convention). -/
def boundingRect : Contour → Rect
  | [] => ⟨0, 0, 0, 0⟩
  | p :: ps =>
    let xs := (p :: ps).map Prod.fst
    let ys := (p :: ps).map Prod.snd
    let x0 := xs.foldl min p.1
    let y0 := ys.foldl min p.2
    let x1 := xs.foldl max p.1
    let y1 := ys.foldl max p.2
    ⟨x0, y0, x1 - x0 + 1, y1 - y0 + 1⟩

/-- Python `int()` on a (modelled) float: truncation toward zero. -/
def pyIntQ (q : ℚ) : Int := if q < 0 then -(Int.floor (-q)) else Int.floor q

/-- Models `np.pi`: the IEEE-754 double nearest π, as an exact rational. -/
def piF64 : ℚ := 884279719003555 / 281474976710656

/-- Round to the nearest integer, ties to even (as `%.1f` formatting does). -/
def roundHalfEven (q : ℚ) : Int :=
  let f := Int.floor q
  let r := q - f
  if r < 1 / 2 then f
  else if 1 / 2 < r then f + 1
  else if 2 ∣ f then f else f + 1

/-- Python `f"{v:.1f}"` on a (modelled) float value. -/
def fmt1 (q : ℚ) : String :=
  let n := roundHalfEven (q * 10)
  if n < 0 then "-" ++ toString (n.natAbs / 10) ++ "." ++ toString (n.natAbs % 10)
  else toString (n.natAbs / 10) ++ "." ++ toString (n.natAbs % 10)

/-- Lowercase hexadecimal digits of `n`. -/
def hexNat (n : Nat) : String := String.mk (Nat.toDigits 16 n)

/-- Python `f"{n:02x}"`: two-digit zero-padded lowercase hex. -/
def hex2 (n : Int) : String :=
  if n < 0 then "-" ++ hexNat n.natAbs
  else
    let s := hexNat n.natAbs
    if s.length < 2 then "0" ++ s else s

/-- Translation of `rgb_to_hex` (convert_png_to_svg.py lines 532-534). -/
def rgb_to_hex (c : Color) : String :=
  "#" ++ hex2 c.1 ++ hex2 c.2.1 ++ hex2 c.2.2

/-- One step of a stable descending insertion sort for key `key`. -/
def insertDesc {α β : Type} [LinearOrder β] (key : α → β) (a : α) : List α → List α
  | [] => [a]
  | b :: bs => if key b ≤ key a then a :: b :: bs else b :: insertDesc key a bs

/-- Stable sort, largest key first: models Python `list.sort(key=…, reverse=True)`
(CPython's sort is stable, and a stable sort is unique as a function of the list). -/
def sortDescBy {α β : Type} [LinearOrder β] (key : α → β) (l : List α) : List α :=
  l.foldr (insertDesc key) []

/-- Worker for `dedupC`: `seen` holds the flattened contours already kept. -/
def dedupAux (seen : List (List Int)) : List Contour → List Contour
  | [] => []
  | c :: rest =>
    if flattenC c ∈ seen then dedupAux seen rest
    else c :: dedupAux (flattenC c :: seen) rest

/-- The duplicate-contour removal of `create_vector_svg` (lines 381-391 and
455-464): key each contour by `hash(tuple(c.ravel()))` and keep the first
occurrence.  The hash is modelled as the flattened coordinate list itself. -/
def dedupC (cs : List Contour) : List Contour := dedupAux [] cs

/-- Occurrences of `pat` in a character list, non-overlapping, left to right. -/
def countSubFrom (pat : List Char) : List Char → Nat
  | [] => 0
  | c :: rest =>
    if pat.isPrefixOf (c :: rest) then 1 + countSubFrom pat (List.drop (pat.length - 1) rest)
    else countSubFrom pat rest
termination_by l => l.length
decreasing_by
  · simp only [List.length_drop, List.length_cons]
    omega
  · simp only [List.length_cons]
    omega

/-- Python `str.count`. -/
def countStr (s pat : String) : Nat := countSubFrom pat.toList s.toList

/-- Substring test on character lists. -/
def containsSubL (pat : List Char) : List Char → Bool
  | [] => pat.isEmpty
  | c :: rest => pat.isPrefixOf (c :: rest) || containsSubL pat rest

/-- Python `pat in s` on strings. -/
def containsStr (s pat : String) : Bool := containsSubL pat.toList s.toList

/-- Models `re.findall(r'd="([^"]*)"', svg)`: the bodies of the `d="…"` attributes,
scanned left to right, non-overlapping. -/
def extractDFrom : List Char → List (List Char)
  | [] => []
  | c :: rest =>
    if ['d', '=', '"'].isPrefixOf (c :: rest) then
      if ((rest.drop 2).dropWhile (· ≠ '"')).isEmpty then extractDFrom rest
      else
        (rest.drop 2).takeWhile (· ≠ '"') ::
          extractDFrom ((rest.drop 2).dropWhile (· ≠ '"')).tail
    else extractDFrom rest
termination_by l => l.length
decreasing_by
  · simp only [List.length_cons]
    omega
  · simp only [List.length_cons]
    have h1 : ((rest.drop 2).dropWhile (· ≠ '"')).length ≤ (rest.drop 2).length :=
      (List.dropWhile_sublist _).length_le
    have h2 : (rest.drop 2).length ≤ rest.length := by
      simp only [List.length_drop]; omega
    have h3 : (((rest.drop 2).dropWhile (· ≠ '"')).tail).length =
        ((rest.drop 2).dropWhile (· ≠ '"')).length - 1 := List.length_tail _
    omega
  · simp only [List.length_cons]
    omega

/-- The RFC 4648 base64 alphabet used by `base64.b64encode`. -/
def b64Char (n : Nat) : Char :=
  "ABCDEFGHIJKLMNOPQRSTUVWXYZabcdefghijklmnopqrstuvwxyz0123456789+/".toList.getD n 'A'

/-- Models `base64.b64encode(bytes).decode('utf-8')` on a list of octets. -/
def base64encode : List Nat → String
  | [] => ""
  | [a] => String.mk [b64Char (a / 4), b64Char (a % 4 * 16), '=', '=']
  | [a, b] => String.mk [b64Char (a / 4), b64Char (a % 4 * 16 + b / 16), b64Char (b % 16 * 4), '=']
  | a :: b :: c :: rest =>
    String.mk [b64Char (a / 4), b64Char (a % 4 * 16 + b / 16), b64Char (b % 16 * 4 + c / 64),
      b64Char (c % 64)] ++ base64encode rest

/-- Contour-retrieval modes of `cv2.findContours`: `outer` is RETR_EXTERNAL
(outermost contours only), `list` is RETR_LIST, `tree` is RETR_TREE. -/
inductive RetrMode
  | outer
  | list
  | tree
deriving DecidableEq, Repr

/-- Contour-approximation flags of `cv2.findContours` (`nonePts` is
`CHAIN_APPROX_NONE`, which keeps every boundary point). -/
inductive ChainApprox
  | simple
  | nonePts
deriving DecidableEq, Repr

/-- The OpenCV / PIL primitives called by convert_png_to_svg.py, kept abstract:
the script's own logic is embedded below, the library calls are parameters.
`grayPrep` stands for lines 64-107 (RGBA→gray conversion, alpha masking to a
white background, CLAHE contrast enhancement); `dilate2` is the 2×2 dilation
applied to Canny edges (lines 163-164). -/
structure CV (Img : Type) where
  convertRGBA : Img → Img
  resizeLanczos : Img → Nat → Nat → Img
  grayPrep : Img → Img
  bilateral : Img → Img
  adaptiveGaussian : Img → Nat → Img
  gaussianBlur : Img → Nat → Img
  otsu : Img → Bool → Img
  canny : Img → Int → Int → Img
  dilate2 : Img → Img
  meanNonWhite : Img → ℚ
  simpleThresh : Img → ℚ → Img
  morphClose : Img → Nat → Img
  morphOpen : Img → Nat → Img
  findContours : Img → RetrMode → ChainApprox → List Contour
  arcLength : Contour → ℚ
  approxPolyDP : Contour → ℚ → Contour
  minEnclosingCircle : Contour → (ℚ × ℚ) × ℚ

/-- The pixel-statistics and clustering primitives of `extract_dominant_colors`.
`np.random.choice` (line 44) draws from the global numpy RNG, so the sampling
primitive threads an explicit RNG state; `KMeans(random_state=42)` itself is
deterministic, so the unsampled variant takes no state. -/
structure ColorPrims (Img Rng : Type) where
  solidPixelCount : Img → Nat
  sampleKmeans : Rng → Img → List Color × Rng
  kmeansAll : Img → List Color

/-- Translation of `extract_dominant_colors` (lines 29-57): sample at most 10000 opaque pixels
(consuming global RNG state exactly when there are more than 10000), default
gray when there are none, k-means cluster centers otherwise. -/
def extract_dominant_colors {Img Rng : Type} (cp : ColorPrims Img Rng) (rng : Rng)
    (img : Img) : List Color × Rng :=
  if 10000 < cp.solidPixelCount img then cp.sampleKmeans rng img
  else if cp.solidPixelCount img = 0 then ([((128 : Int), (128 : Int), (128 : Int))], rng)
  else (cp.kmeansAll img, rng)

/-- One entry of the `thresholding_methods` list of `preprocess_image`: a
candidate binarization, its count of contours of area above 1 under one
retrieval mode, and those contours.  (The debug label is omitted; the
selection only reads the count.) -/
structure ThreshEntry (Img : Type) where
  binary : Img
  count : Nat
  contours : List Contour

/-- Translation of `add_threshold_method` (lines 118-131): evaluate one candidate binarization
under the three retrieval modes, counting the contours with area above 1. -/
def addThreshold {Img : Type} (cv : CV Img) (b : Img) : List (ThreshEntry Img) :=
  [RetrMode.outer, RetrMode.list, RetrMode.tree].map (fun m =>
    let valid := (cv.findContours b m ChainApprox.simple).filter
      (fun c => decide (1 < contourAreaQ c))
    ⟨b, valid.length, valid⟩)

/-- The candidate binarizations of `preprocess_image` (lines 133-172), in source
order: adaptive Gaussian (block sizes 11, 21, 31), Otsu normal and inverted
(Gaussian blur 0, 3, 5), dilated Canny edges (threshold pairs (30,100),
(50,150), (70,200)), and simple thresholding at five offsets around the mean
of the non-white pixels, clamped to [1, 254]. -/
def threshCandidates {Img : Type} (cv : CV Img) (filtered : Img) : List (ThreshEntry Img) :=
  ([11, 21, 31].flatMap (fun bs => addThreshold cv (cv.adaptiveGaussian filtered bs)))
  ++ ([0, 3, 5].flatMap (fun blur =>
        let blurred := if 0 < blur then cv.gaussianBlur filtered blur else filtered
        addThreshold cv (cv.otsu blurred false) ++ addThreshold cv (cv.otsu blurred true)))
  ++ ([((30 : Int), (100 : Int)), (50, 150), (70, 200)].flatMap (fun p =>
        addThreshold cv (cv.dilate2 (cv.canny filtered p.1 p.2))))
  ++ ([(-40 : Int), -20, 0, 20, 40].flatMap (fun off =>
        addThreshold cv
          (cv.simpleThresh filtered (max 1 (min 254 (cv.meanNonWhite filtered + (off : ℚ)))))))

/-- The selected entry (lines 174-185): sort by contour count, descending, and
take the first.  The default entry mirrors the source's `(None, None, 0, [])`
and is unreachable: the candidate list is never empty. -/
def bestThreshold {Img : Type} (cv : CV Img) (filtered : Img) : ThreshEntry Img :=
  (sortDescBy (fun e => e.count) (threshCandidates cv filtered)).headD ⟨filtered, 0, []⟩

/-- Translation of `preprocess_image` (lines 59-250): grayscale preparation, bilateral filter,
candidate selection, then morphological close/open cleanup when the selected
candidate produced contours.  The image here is always 512×512, so the kernel
size `max(1, min(3, min(binary.shape)//100))` is `max 1 (min 3 (512 / 100))`.
The debug output and the returned debug-info dictionary are omitted (the
caller ignores them). -/
def preprocess_image {Img : Type} (cv : CV Img) (imgArr : Img) : Img × Img :=
  let gray := cv.grayPrep imgArr
  let filtered := cv.bilateral gray
  let best := bestThreshold cv filtered
  let kernelSize := max 1 (min 3 (512 / 100))
  let binaryCleaned :=
    if 0 < best.count then cv.morphOpen (cv.morphClose best.binary kernelSize) kernelSize
    else best.binary
  (gray, binaryCleaned)

/-- The classification assigned by `detect_shapes`. -/
inductive ShapeKind
  | circle (center : Int × Int) (radius : Int)
  | rectangle (bounds : Rect)
  | polygon
deriving DecidableEq, Repr

/-- One element of the list built by `detect_shapes` (lines 298-305). -/
structure ShapeInfo where
  contour : Contour
  approx : Contour
  area : ℚ
  perimeter : ℚ
  vertices : Nat
  kind : ShapeKind

/-- The per-contour body of `detect_shapes` (lines 281-331): skip areas below
100 and zero perimeters; approximate with Douglas–Peucker at ε = 2% of the
perimeter; classify as circle (more than 8 vertices and circularity
`4·π·area/perimeter²` above 0.7), rectangle (exactly 4 vertices and area above
0.8 of the bounding-rectangle area), polygon otherwise. -/
def classifyContour {Img : Type} (cv : CV Img) (c : Contour) : Option ShapeInfo :=
  let area := contourAreaQ c
  if area < 100 then none
  else
    let per := cv.arcLength c
    if per = 0 then none
    else
      let approx := cv.approxPolyDP c ((0.02 : ℚ) * per)
      let v := approx.length
      let kind :=
        if 8 < v then
          if (0.7 : ℚ) < 4 * piF64 * area / (per * per) then
            let mec := cv.minEnclosingCircle c
            ShapeKind.circle (pyIntQ mec.1.1, pyIntQ mec.1.2) (pyIntQ mec.2)
          else ShapeKind.polygon
        else if v = 4 then
          let r := boundingRect c
          if (0.8 : ℚ) < area / ((r.w * r.h : Int) : ℚ) then ShapeKind.rectangle r
          else ShapeKind.polygon
        else ShapeKind.polygon
      some ⟨c, approx, area, per, v, kind⟩

/-- Translation of `detect_shapes` (lines 277-333). -/
def detect_shapes {Img : Type} (cv : CV Img) (cs : List Contour) : List ShapeInfo :=
  cs.filterMap (classifyContour cv)

/-- Translation of `contour_to_svg_path` (lines 257-275) at the default `scale_factor = 1.0`:
"M x y" then " L x y" per remaining point, then " Z"; empty for fewer than
three points. -/
def contour_to_svg_path (c : Contour) : String :=
  if c.length < 3 then ""
  else
    match c with
    | [] => ""
    | p :: ps =>
      (ps.foldl (fun acc q => acc ++ " L " ++ fmt1 (q.1 : ℚ) ++ " " ++ fmt1 (q.2 : ℚ))
        ("M " ++ fmt1 (p.1 : ℚ) ++ " " ++ fmt1 (p.2 : ℚ))) ++ " Z"

/-- The SVG element produced for one detected shape (the loop body of
`generate_svg_from_shapes`, lines 549-592); `none` when the guards reject it. -/
def shapeElement (colors : List Color) (i : Nat) (s : ShapeInfo) : Option String :=
  let color := colors.getD (i % colors.length) (128, 128, 128)
  let fill := rgb_to_hex color
  let stroke := rgb_to_hex (max 0 (color.1 - 30), max 0 (color.2.1 - 30), max 0 (color.2.2 - 30))
  match s.kind with
  | ShapeKind.circle center radius =>
    let r := max 1 radius
    if 0 < r then
      some ("<circle cx=\"" ++ toString center.1 ++ "\" cy=\"" ++ toString center.2
        ++ "\" r=\"" ++ toString r ++ "\" fill=\"" ++ fill ++ "\" stroke=\"" ++ stroke
        ++ "\" stroke-width=\"2\"/>")
    else none
  | ShapeKind.rectangle r =>
    if 0 < r.w ∧ 0 < r.h then
      some ("<rect x=\"" ++ toString r.x ++ "\" y=\"" ++ toString r.y ++ "\" width=\""
        ++ toString r.w ++ "\" height=\"" ++ toString r.h ++ "\" fill=\"" ++ fill
        ++ "\" stroke=\"" ++ stroke ++ "\" stroke-width=\"2\"/>")
    else none
  | ShapeKind.polygon =>
    let pd0 := contour_to_svg_path s.approx
    let pd := if pd0 = "" then contour_to_svg_path s.contour else pd0
    if pd ≠ "" ∧ 10 < pd.length then
      some ("<path d=\"" ++ pd ++ "\" fill=\"" ++ fill ++ "\" stroke=\"" ++ stroke
        ++ "\" stroke-width=\"2\"/>")
    else none

/-- Translation of `generate_svg_from_shapes` (lines 536-606): empty string when there are no
shapes or no surviving elements, else the fixed 512×512 SVG wrapper around the
elements joined by newline-plus-indent.  Colors are used cyclically. -/
def generate_svg_from_shapes (shapes : List ShapeInfo) (colors : List Color) : String :=
  if shapes.isEmpty then ""
  else
    let colors' := if colors.isEmpty then [((128 : Int), (128 : Int), (128 : Int))] else colors
    let elems := shapes.enum.filterMap (fun p => shapeElement colors' p.1 p.2)
    if elems.isEmpty then ""
    else
      "<?xml version=\"1.0\" encoding=\"UTF-8\"?>\n<svg xmlns=\"http://www.w3.org/2000/svg\"\n     width=\"512\"\n     height=\"512\"\n     viewBox=\"0 0 512 512\">\n    "
        ++ String.intercalate "\n    " elems ++ "\n</svg>"

/-- Translation of `validate_svg_content` (lines 509-530): count shape elements; if every
`d="…"` body has at most 10 non-space characters, subtract the `<path` count;
accept when the (possibly negative) total is positive. -/
def validate_svg_content (svg : String) : Bool :=
  let elems := ["<path", "<circle", "<rect", "<ellipse", "<polygon", "<line"]
  let visible : Int := elems.foldl
    (fun acc e => if containsStr svg e then acc + (countStr svg e : Int) else acc) 0
  let visible :=
    if containsStr svg "<path" then
      let meaningful := (extractDFrom svg.toList).filter
        (fun p => decide (10 < (String.mk p).trim.length))
      if meaningful.isEmpty then visible - (countStr svg "<path" : Int) else visible
    else visible
  0 < visible

/-- Python `str.lower()` on the character list (the icon names are ASCII).
`String.toLower` itself is avoided: its worker recurses on byte positions by
well-founded recursion, which blocks kernel evaluation. -/
def pyLower (s : String) : String := String.mk (s.data.map Char.toLower)

/-- Models `any(word in icon_name.lower() for word in ws)`. -/
def anyKeyword (name : String) (ws : List String) : Bool :=
  ws.any (fun w => containsStr (pyLower name) w)

/-- The template body chosen by keywords of the icon name in
`create_simple_fallback_svg` (lines 615-644). -/
def fallbackBody (iconName : String) (primary secondary : String) : String :=
  if anyKeyword iconName ["server", "database", "storage"] then
    "\n    <rect x=\"128\" y=\"128\" width=\"256\" height=\"256\" rx=\"16\"\n          fill=\""
      ++ primary ++ "\" stroke=\"" ++ secondary ++ "\" stroke-width=\"4\"/>\n    <rect x=\"160\" y=\"160\" width=\"192\" height=\"32\" rx=\"8\" fill=\""
      ++ secondary ++ "\"/>\n    <rect x=\"160\" y=\"224\" width=\"192\" height=\"32\" rx=\"8\" fill=\""
      ++ secondary ++ "\"/>\n    <rect x=\"160\" y=\"288\" width=\"192\" height=\"32\" rx=\"8\" fill=\""
      ++ secondary ++ "\"/>\n"
  else if anyKeyword iconName ["network", "router", "switch"] then
    "\n    <circle cx=\"256\" cy=\"256\" r=\"80\" fill=\"" ++ primary ++ "\" stroke=\""
      ++ secondary ++ "\" stroke-width=\"4\"/>\n    <circle cx=\"160\" cy=\"160\" r=\"40\" fill=\""
      ++ secondary ++ "\"/>\n    <circle cx=\"352\" cy=\"160\" r=\"40\" fill=\""
      ++ secondary ++ "\"/>\n    <circle cx=\"160\" cy=\"352\" r=\"40\" fill=\""
      ++ secondary ++ "\"/>\n    <circle cx=\"352\" cy=\"352\" r=\"40\" fill=\""
      ++ secondary ++ "\"/>\n"
  else if anyKeyword iconName ["user", "actor", "agent"] then
    "\n    <circle cx=\"256\" cy=\"180\" r=\"60\" fill=\"" ++ primary ++ "\" stroke=\""
      ++ secondary ++ "\" stroke-width=\"4\"/>\n    <path d=\"M 180 320 Q 180 280 256 280 Q 332 280 332 320 L 332 380 L 180 380 Z\"\n          fill=\""
      ++ primary ++ "\" stroke=\"" ++ secondary ++ "\" stroke-width=\"4\"/>\n"
  else
    "\n    <rect x=\"128\" y=\"128\" width=\"256\" height=\"256\" rx=\"32\"\n          fill=\""
      ++ primary ++ "\" stroke=\"" ++ secondary ++ "\" stroke-width=\"4\"/>\n    <circle cx=\"256\" cy=\"256\" r=\"64\" fill=\""
      ++ secondary ++ "\"/>\n"

/-- The file content written by `create_simple_fallback_svg` (lines 608-661):
primary color `colors[0]` (default gray), secondary `colors[1]` (default dark
gray), and a hand-coded template chosen by keywords in the icon name. -/
def fallbackSvgContent (iconName : String) (colors : List Color) : String :=
  let primary := rgb_to_hex (colors.headD (128, 128, 128))
  let secondary := rgb_to_hex (colors.getD 1 (96, 96, 96))
  "<?xml version=\"1.0\" encoding=\"UTF-8\"?>\n<svg xmlns=\"http://www.w3.org/2000/svg\"\n     width=\"512\"\n     height=\"512\"\n     viewBox=\"0 0 512 512\">\n"
    ++ fallbackBody iconName primary secondary ++ "\n</svg>"

/-- Stage markers for the vectorization pipeline, used by the instrumentation
trace of `create_vector_svg`.  They mark the claim-level stages in execution
order: the recovery re-extraction (lines 422-448) and the second dedup (lines
455-464) belong to the extraction and dedup stages respectively. -/
inductive Stage
  | preprocessing
  | thresholding
  | extraction
  | dedupStage
  | classification
  | synthesis
  | validation
  | writeOut
  | fallbackOut
deriving DecidableEq, Repr

/-- The three contour-finding configurations of `create_vector_svg`
(lines 369-373). -/
def contourMethods : List (RetrMode × ChainApprox) :=
  [(RetrMode.outer, ChainApprox.simple), (RetrMode.list, ChainApprox.simple),
   (RetrMode.tree, ChainApprox.nonePts)]

/-- All contours found by the three standard configurations (lines 375-379);
extending only when the result is non-empty equals concatenation. -/
def extractStd {Img : Type} (cv : CV Img) (binary : Img) : List Contour :=
  contourMethods.flatMap (fun m => cv.findContours binary m.1 m.2)

/-- The recovery attempts of lines 422-448: a plain Otsu threshold of the
grayscale under the three configurations, and if that yields nothing, Canny
edges at the three threshold pairs; in both cases only contours of area above
1 are kept. -/
def altContours {Img : Type} (cv : CV Img) (gray : Img) : List Contour :=
  let simpleBin := cv.otsu gray false
  let fromOtsu := contourMethods.flatMap (fun m =>
    (cv.findContours simpleBin m.1 m.2).filter (fun c => decide (1 < contourAreaQ c)))
  if fromOtsu.isEmpty then
    [((30 : Int), (100 : Int)), (50, 150), (70, 200)].flatMap (fun p =>
      contourMethods.flatMap (fun m =>
        (cv.findContours (cv.canny gray p.1 p.2) m.1 m.2).filter
          (fun c => decide (1 < contourAreaQ c))))
  else fromOtsu

/-- The adaptive area threshold of lines 393-397.  The image has been resized
to 512×512 (line 345), so `image_area` is 512·512 and the threshold is
`min(max(1, 0.0005·262144), 5) = 5`. -/
def vsvgMinArea : ℚ := min (max 1 ((0.0005 : ℚ) * (512 * 512))) 5

/-- Lines 381-448 of `create_vector_svg`: dedup the extracted contours, filter
by the adaptive area threshold, rescue small contours when fewer than three
remain, sort by area descending, and fall back to the recovery extraction when
nothing remains. -/
def vsvgValid3 {Img : Type} (cv : CV Img) (gray binary : Img) : List Contour :=
  let uniqueC := dedupC (extractStd cv binary)
  let valid0 := uniqueC.filter (fun c => decide (vsvgMinArea < contourAreaQ c))
  let smalls := uniqueC.filter
    (fun c => decide (¬ vsvgMinArea < contourAreaQ c ∧ 1 < contourAreaQ c))
  let valid1 := if valid0.length < 3 ∧ ¬ smalls.isEmpty then valid0 ++ smalls else valid0
  let valid2 := sortDescBy contourAreaQ valid1
  if valid2.isEmpty then altContours cv gray else valid2

/-- Lines 455-469: final dedup, sort by area descending, keep the 20 largest. -/
def vsvgFinal (cs : List Contour) : List Contour :=
  (sortDescBy contourAreaQ (dedupC cs)).take 20

/-- The RGBA-converted, 512×512-resized image array of `create_vector_svg`
(lines 341-348). -/
def vsvgImgArr {Img : Type} (cv : CV Img) (img : Img) : Img :=
  cv.resizeLanczos (cv.convertRGBA img) 512 512

/-- The dominant colors (and the RNG state after their extraction) as computed
at line 357 of `create_vector_svg`. -/
def vsvgColors {Img Rng : Type} (cv : CV Img) (cp : ColorPrims Img Rng) (rng : Rng)
    (img : Img) : List Color × Rng :=
  extract_dominant_colors cp rng (vsvgImgArr cv img)

/-- The contour list of `create_vector_svg` after preprocessing, extraction,
dedup, filtering and the recovery attempts (lines 362-448). -/
def vsvgContours {Img : Type} (cv : CV Img) (img : Img) : List Contour :=
  let gb := preprocess_image cv (vsvgImgArr cv img)
  vsvgValid3 cv gb.1 gb.2

/-- The SVG content generated from the detected shapes (lines 455-476). -/
def vsvgGenerated {Img Rng : Type} (cv : CV Img) (cp : ColorPrims Img Rng) (rng : Rng)
    (img : Img) : String :=
  generate_svg_from_shapes (detect_shapes cv (vsvgFinal (vsvgContours cv img)))
    (vsvgColors cv cp rng img).1

/-- The observable outcome of one `create_vector_svg` call: the file content
written to `svg_path`, whether the hand-coded fallback template was used, and
the instrumentation trace of pipeline stages. -/
structure ConvOut where
  svg : String
  usedFallback : Bool
  trace : List Stage
deriving DecidableEq

/-- Translation of `create_vector_svg` (lines 335-507) as a pure function.  The image is
converted to RGBA and resized to 512×512, dominant colors are extracted
(consuming RNG state when sampling occurs), the image is preprocessed (which
includes the thresholding-method selection), contours are extracted and
deduplicated; if no valid contour survives even the recovery attempts, the
fallback template is written; otherwise shapes are detected on the 20 largest
unique contours, the SVG is generated and validated, and the fallback is used
exactly when validation fails.  Debug-image writes and the outer generic
exception handler are outside this model. -/
def vsvgAssemble {Img Rng : Type} (cv : CV Img) (img : Img) (stem : String)
    (cRes : List Color × Rng) (svgC : String) : ConvOut × Rng :=
  if (vsvgContours cv img).isEmpty then
    (⟨fallbackSvgContent stem cRes.1, true,
      [Stage.preprocessing, Stage.thresholding, Stage.extraction, Stage.dedupStage,
       Stage.fallbackOut]⟩, cRes.2)
  else
    if validate_svg_content svgC then
      (⟨svgC, false,
        [Stage.preprocessing, Stage.thresholding, Stage.extraction, Stage.dedupStage,
         Stage.classification, Stage.synthesis, Stage.validation, Stage.writeOut]⟩, cRes.2)
    else
      (⟨fallbackSvgContent stem cRes.1, true,
        [Stage.preprocessing, Stage.thresholding, Stage.extraction, Stage.dedupStage,
         Stage.classification, Stage.synthesis, Stage.validation, Stage.fallbackOut]⟩, cRes.2)

/-- Translation of `create_vector_svg` proper: colors and generated SVG are computed from the
image, then the branch structure of lines 450-507 decides what is written. -/
def create_vector_svg {Img Rng : Type} (cv : CV Img) (cp : ColorPrims Img Rng)
    (rng : Rng) (img : Img) (stem : String) : ConvOut × Rng :=
  vsvgAssemble cv img stem (vsvgColors cv cp rng img) (vsvgGenerated cv cp rng img)

/-- Translation of `convert_icons` (convert_png_to_svg.py lines 665-727): the per-image loop,
with the numpy global RNG state threaded through the iterations in order.
Each input is a (file stem, image) pair; each output pairs the stem with the
conversion outcome for that file. -/
def convert_icons {Img Rng : Type} (cv : CV Img) (cp : ColorPrims Img Rng)
    (rng : Rng) : List (String × Img) → List (String × ConvOut) × Rng
  | [] => ([], rng)
  | f :: rest =>
    let r := create_vector_svg cv cp rng f.2 f.1
    let tail := convert_icons cv cp r.2 rest
    ((f.1, r.1) :: tail.1, tail.2)

/-- The PIL primitives used by convert.py, kept abstract.  `encodePng` models
`canvas.save(buffered, format="PNG", optimize=True)`, producing the octets of
the PNG encoding. -/
structure ImgLib (Img : Type) where
  size : Img → Nat × Nat
  toRGBA : Img → Img
  resize : Img → Int → Int → Img
  newCanvas : Nat → Nat → Img
  paste : Img → Img → Int → Int → Img
  encodePng : Img → List Nat

/-- Translation of `scale = min(target_size / width, target_size / height)` (convert.py
line 41). -/
def embedScale (w h ts : Nat) : ℚ := min ((ts : ℚ) / (w : ℚ)) ((ts : ℚ) / (h : ℚ))

/-- Translation of `new_width = int(width * scale)` (line 42). -/
def embedNewW (w h ts : Nat) : Int := pyIntQ ((w : ℚ) * embedScale w h ts)

/-- Translation of `new_height = int(height * scale)` (line 43). -/
def embedNewH (w h ts : Nat) : Int := pyIntQ ((h : ℚ) * embedScale w h ts)

/-- Translation of `x = (target_size - new_width) // 2` (line 46). -/
def embedX (w h ts : Nat) : Int := Int.fdiv ((ts : Int) - embedNewW w h ts) 2

/-- Translation of `y = (target_size - new_height) // 2` (line 47). -/
def embedY (w h ts : Nat) : Int := Int.fdiv ((ts : Int) - embedNewH w h ts) 2

/-- Lines 34-54 of convert.py: convert to RGBA, resize by the aspect-preserving
scale, and paste centered onto a transparent `target_size × target_size`
canvas. -/
def embedCanvas {Img : Type} (lib : ImgLib Img) (img : Img) (ts : Nat) : Img :=
  let rgba := lib.toRGBA img
  let w := (lib.size rgba).1
  let h := (lib.size rgba).2
  let resized := lib.resize rgba (embedNewW w h ts) (embedNewH w h ts)
  lib.paste (lib.newCanvas ts ts) resized (embedX w h ts) (embedY w h ts)

/-- Translation of `create_embedded_svg` (convert.py lines 27-80): the SVG written on success —
a `target_size` square document whose single image element carries the pasted
canvas as a base64 PNG data URI. -/
def create_embedded_svg {Img : Type} (lib : ImgLib Img) (img : Img) (ts : Nat) : String :=
  let data := base64encode (lib.encodePng (embedCanvas lib img ts))
  "<?xml version=\"1.0\" encoding=\"UTF-8\"?>\n<svg width=\"" ++ toString ts ++ "\" height=\""
    ++ toString ts ++ "\" viewBox=\"0 0 " ++ toString ts ++ " " ++ toString ts
    ++ "\" \n     xmlns=\"http://www.w3.org/2000/svg\" xmlns:xlink=\"http://www.w3.org/1999/xlink\">\n  <image width=\""
    ++ toString ts ++ "\" height=\"" ++ toString ts
    ++ "\" \n         xlink:href=\"data:image/png;base64," ++ data ++ "\"/>\n</svg>"

/-- Modelled from the spec: the repository's second base64-embedding script is
not present under src/ (only convert.py and convert_png_to_svg.py are).  Per
the spec it likewise embeds the original PNG as a base64 data URI inside an
SVG wrapper, optionally via an external vector-tracing tool; the optional tool
is modelled as a preliminary image transform. -/
def create_traced_embedded_svg {Img : Type} (lib : ImgLib Img) (tool : Option (Img → Img))
    (img : Img) (ts : Nat) : String :=
  match tool with
  | some t => create_embedded_svg lib (t img) ts
  | none => create_embedded_svg lib img ts

/-- The two conversion behaviours the spec distinguishes. -/
inductive ScriptKind
  | embedB64
  | vectorize
deriving DecidableEq, Repr

/-- The three command-line conversion scripts and their kinds.  The second
entry is modelled from the spec (its file is absent from src/; the name is a
placeholder). -/
def repoScripts : List (String × ScriptKind) :=
  [("convert.py", ScriptKind.embedB64),
   ("convert_traced.py", ScriptKind.embedB64),
   ("convert_png_to_svg.py", ScriptKind.vectorize)]

/-! ### Helper lemmas about the stable descending sort -/

theorem insertDesc_perm {α β : Type} [LinearOrder β] (key : α → β) (a : α) :
    ∀ l : List α, List.Perm (insertDesc key a l) (a :: l)
  | [] => List.Perm.refl _
  | b :: bs => by
    unfold insertDesc
    split
    · exact List.Perm.refl _
    · exact ((insertDesc_perm key a bs).cons b).trans (List.Perm.swap a b bs)

theorem sortDescBy_perm {α β : Type} [LinearOrder β] (key : α → β) :
    ∀ l : List α, List.Perm (sortDescBy key l) l
  | [] => List.Perm.refl _
  | a :: l =>
    (insertDesc_perm key a (sortDescBy key l)).trans ((sortDescBy_perm key l).cons a)

theorem insertDesc_pairwise {α β : Type} [LinearOrder β] (key : α → β) (a : α) :
    ∀ {l : List α}, List.Pairwise (fun x y => key y ≤ key x) l →
      List.Pairwise (fun x y => key y ≤ key x) (insertDesc key a l)
  | [], _ => by simp [insertDesc]
  | b :: bs, h => by
    unfold insertDesc
    rcases List.pairwise_cons.mp h with ⟨hb, hbs⟩
    split
    · rename_i hba
      refine List.pairwise_cons.mpr ⟨?_, h⟩
      intro y hy
      rcases List.mem_cons.mp hy with rfl | hy
      · exact hba
      · exact le_trans (hb y hy) hba
    · rename_i hba
      refine List.pairwise_cons.mpr ⟨?_, insertDesc_pairwise key a hbs⟩
      intro y hy
      rcases List.mem_cons.mp ((insertDesc_perm key a bs).mem_iff.mp hy) with rfl | h'
      · exact le_of_not_le hba
      · exact hb y h'

theorem sortDescBy_pairwise {α β : Type} [LinearOrder β] (key : α → β) :
    ∀ l : List α, List.Pairwise (fun x y => key y ≤ key x) (sortDescBy key l)
  | [] => List.Pairwise.nil
  | a :: l => insertDesc_pairwise key a (sortDescBy_pairwise key l)

/-- The head of the descending sort attains the maximal key. -/
theorem sortDescBy_headD_max {α β : Type} [LinearOrder β] (key : α → β) (l : List α)
    (d : α) (x : α) (hx : x ∈ l) : key x ≤ key ((sortDescBy key l).headD d) := by
  have hmem : x ∈ sortDescBy key l := (sortDescBy_perm key l).mem_iff.mpr hx
  have hs := sortDescBy_pairwise key l
  cases hsort : sortDescBy key l with
  | nil => rw [hsort] at hmem; cases hmem
  | cons h t =>
    rw [hsort] at hmem hs
    rcases List.mem_cons.mp hmem with rfl | hmem
    · simp
    · exact (List.pairwise_cons.mp hs).1 x hmem

/-! ### Helper lemmas about the duplicate-contour removal -/

theorem dedupAux_sublist (seen : List (List Int)) :
    ∀ cs : List Contour, List.Sublist (dedupAux seen cs) cs
  | [] => List.Sublist.refl _
  | c :: rest => by
    unfold dedupAux
    split
    · exact (dedupAux_sublist seen rest).cons c
    · exact (dedupAux_sublist (flattenC c :: seen) rest).cons₂ c

theorem mem_dedupAux_not_seen :
    ∀ (seen : List (List Int)) (cs : List Contour) (c : Contour),
      c ∈ dedupAux seen cs → flattenC c ∉ seen
  | seen, [], c, h => by simp [dedupAux] at h
  | seen, c' :: rest, c, h => by
    unfold dedupAux at h
    split at h
    · exact mem_dedupAux_not_seen seen rest c h
    · rcases List.mem_cons.mp h with rfl | h
      · assumption
      · intro hc
        exact mem_dedupAux_not_seen _ rest c h (List.mem_cons_of_mem _ hc)

theorem dedupAux_pairwise (seen : List (List Int)) :
    ∀ cs : List Contour,
      List.Pairwise (fun a b => flattenC a ≠ flattenC b) (dedupAux seen cs)
  | [] => List.Pairwise.nil
  | c :: rest => by
    unfold dedupAux
    split
    · exact dedupAux_pairwise seen rest
    · refine List.pairwise_cons.mpr ⟨?_, dedupAux_pairwise _ rest⟩
      intro b hb heq
      exact mem_dedupAux_not_seen _ rest b hb (heq ▸ List.mem_cons_self _ _)

theorem dedupAux_covers (seen : List (List Int)) :
    ∀ (cs : List Contour) (c : Contour), c ∈ cs →
      flattenC c ∈ seen ∨ ∃ c' ∈ dedupAux seen cs, flattenC c' = flattenC c
  | [], c, h => by cases h
  | c' :: rest, c, h => by
    unfold dedupAux
    rcases List.mem_cons.mp h with rfl | h
    · by_cases hc : flattenC c ∈ seen
      · left; exact hc
      · right
        rw [if_neg hc]
        exact ⟨c, List.mem_cons_self _ _, rfl⟩
    · split
      · exact dedupAux_covers seen rest c h
      · rcases dedupAux_covers (flattenC c' :: seen) rest c h with hs | ⟨d, hd, hde⟩
        · rcases List.mem_cons.mp hs with he | hs
          · right
            exact ⟨c', List.mem_cons_self _ _, he.symm⟩
          · left; exact hs
        · right
          exact ⟨d, List.mem_cons_of_mem _ hd, hde⟩

/-- Lemma: `dedupC` keeps a subsequence of its input (first occurrences, in order). -/
theorem dedupC_sublist (cs : List Contour) : List.Sublist (dedupC cs) cs :=
  dedupAux_sublist [] cs

/-- No two contours kept by `dedupC` have the same flattened coordinates. -/
theorem dedupC_pairwise (cs : List Contour) :
    List.Pairwise (fun a b => flattenC a ≠ flattenC b) (dedupC cs) :=
  dedupAux_pairwise [] cs

/-- Every input contour's point sequence is represented in the output. -/
theorem dedupC_covers (cs : List Contour) (c : Contour) (h : c ∈ cs) :
    ∃ c' ∈ dedupC cs, flattenC c' = flattenC c := by
  rcases dedupAux_covers [] cs c h with hs | h'
  · cases hs
  · exact h'

/-! ### Character-level helper lemmas for the SVG string structure -/

theorem getD_prop {α : Type} {P : α → Prop} :
    ∀ (l : List α) (n : Nat) (d : α), (∀ x ∈ l, P x) → P d → P (l.getD n d)
  | [], n, d, _, hd => by simpa [List.getD] using hd
  | a :: l, 0, d, hl, _ => by simpa using hl a (List.mem_cons_self _ _)
  | a :: l, n + 1, d, hl, hd => by
    simpa using getD_prop l n d (fun x hx => hl x (List.mem_cons_of_mem _ hx)) hd

theorem digitChar_ne_lt : ∀ m : Nat, Nat.digitChar m ≠ '<'
  | 0 | 1 | 2 | 3 | 4 | 5 | 6 | 7 | 8 | 9 | 10 | 11 | 12 | 13 | 14 | 15 => by decide
  | n + 16 => by
    simp only [Nat.digitChar]
    repeat rw [if_neg (by omega)]
    decide

theorem toDigitsCore_no_lt (b : Nat) :
    ∀ (f n : Nat) (acc : List Char), '<' ∉ acc → '<' ∉ Nat.toDigitsCore b f n acc
  | 0, n, acc, hacc => by simpa [Nat.toDigitsCore] using hacc
  | f + 1, n, acc, hacc => by
    simp only [Nat.toDigitsCore]
    split
    · intro hmem
      rcases List.mem_cons.mp hmem with he | hmem
      · exact digitChar_ne_lt _ he.symm
      · exact hacc hmem
    · refine toDigitsCore_no_lt b f _ _ ?_
      intro hmem
      rcases List.mem_cons.mp hmem with he | hmem
      · exact digitChar_ne_lt _ he.symm
      · exact hacc hmem

/-- The decimal rendering of a natural number contains no `<` character. -/
theorem natToString_no_lt (n : Nat) : '<' ∉ (toString n).toList := by
  show '<' ∉ Nat.toDigitsCore 10 (n + 1) n []
  exact toDigitsCore_no_lt 10 (n + 1) n [] (by simp)

theorem b64Char_ne_lt (n : Nat) : b64Char n ≠ '<' := by
  unfold b64Char
  exact getD_prop (P := fun c => c ≠ '<') _ n 'A' (by decide) (by decide)

theorem base64encode_no_lt : ∀ bs : List Nat, '<' ∉ (base64encode bs).toList := by
  intro bs
  induction bs using base64encode.induct with
  | case1 => simp [base64encode, String.toList]
  | case2 a =>
    intro h
    simp only [base64encode, String.toList, List.mem_cons, List.not_mem_nil, or_false] at h
    rcases h with h | h | h | h
    · exact b64Char_ne_lt _ h.symm
    · exact b64Char_ne_lt _ h.symm
    · exact absurd h (by decide)
    · exact absurd h (by decide)
  | case3 a b =>
    intro h
    simp only [base64encode, String.toList, List.mem_cons, List.not_mem_nil, or_false] at h
    rcases h with h | h | h | h
    · exact b64Char_ne_lt _ h.symm
    · exact b64Char_ne_lt _ h.symm
    · exact b64Char_ne_lt _ h.symm
    · exact absurd h (by decide)
  | case4 a b c rest ih =>
    intro h
    simp only [base64encode, String.toList, String.data_append, List.mem_append,
      List.mem_cons, List.not_mem_nil, or_false] at h
    rcases h with ((h | h | h | h) | h)
    · exact b64Char_ne_lt _ h.symm
    · exact b64Char_ne_lt _ h.symm
    · exact b64Char_ne_lt _ h.symm
    · exact b64Char_ne_lt _ h.symm
    · exact ih h

/-- A pattern that occurs literally as a segment of a character list is found
by `containsSubL`. -/
theorem containsSubL_append (pat b : List Char) :
    ∀ a : List Char, containsSubL pat (a ++ pat ++ b) = true
  | [] => by
    cases pat with
    | nil => cases b <;> simp [containsSubL]
    | cons p ps =>
      simp only [List.nil_append, List.cons_append, containsSubL, Bool.or_eq_true]
      left
      rw [List.isPrefixOf_iff_prefix]
      exact ⟨b, by simp⟩
  | c :: a' => by
    simp only [List.cons_append, containsSubL, Bool.or_eq_true]
    right
    exact containsSubL_append pat b a'

/-! ### Concrete instantiations of the abstract primitives, for witnesses -/

/-- A trivial instantiation of the OpenCV primitives on a one-point image type
(no contours are ever found), used to evaluate the pipeline concretely. -/
def cvUnit : CV Unit where
  convertRGBA := fun _ => ()
  resizeLanczos := fun _ _ _ => ()
  grayPrep := fun _ => ()
  bilateral := fun _ => ()
  adaptiveGaussian := fun _ _ => ()
  gaussianBlur := fun _ _ => ()
  otsu := fun _ _ => ()
  canny := fun _ _ _ => ()
  dilate2 := fun _ => ()
  meanNonWhite := fun _ => 0
  simpleThresh := fun _ _ => ()
  morphClose := fun _ _ => ()
  morphOpen := fun _ _ => ()
  findContours := fun _ _ _ => []
  arcLength := fun _ => 0
  approxPolyDP := fun c _ => c
  minEnclosingCircle := fun _ => ((0, 0), 0)

/-- Color primitives with no opaque pixels, used with `cvUnit`. -/
def cpUnit : ColorPrims Unit Nat where
  solidPixelCount := fun _ => 0
  sampleKmeans := fun r _ => ([], r)
  kmeansAll := fun _ => []

/-- A variant of `cvUnit` whose shape primitives are non-trivial (perimeter 40,
identity Douglas–Peucker), used to evaluate `detect_shapes` concretely. -/
def cvShape : CV Unit where
  convertRGBA := fun _ => ()
  resizeLanczos := fun _ _ _ => ()
  grayPrep := fun _ => ()
  bilateral := fun _ => ()
  adaptiveGaussian := fun _ _ => ()
  gaussianBlur := fun _ _ => ()
  otsu := fun _ _ => ()
  canny := fun _ _ _ => ()
  dilate2 := fun _ => ()
  meanNonWhite := fun _ => 0
  simpleThresh := fun _ _ => ()
  morphClose := fun _ _ => ()
  morphOpen := fun _ _ => ()
  findContours := fun _ _ _ => []
  arcLength := fun _ => 40
  approxPolyDP := fun c _ => c
  minEnclosingCircle := fun _ => ((10, 10), 14)

/-- A ten-point contour (a 20×20 square with extra collinear vertices),
shoelace area 400. -/
def cW : Contour :=
  [(0, 0), (5, 0), (10, 0), (15, 0), (20, 0), (20, 10), (20, 20), (10, 20), (0, 20), (0, 10)]

/-- Image primitives on `Nat` "images" where the pipeline finds no contours and
the per-image value plays the role of the opaque-pixel count. -/
def cvNat : CV Nat where
  convertRGBA := fun i => i
  resizeLanczos := fun i _ _ => i
  grayPrep := fun i => i
  bilateral := fun i => i
  adaptiveGaussian := fun i _ => i
  gaussianBlur := fun i _ => i
  otsu := fun i _ => i
  canny := fun i _ _ => i
  dilate2 := fun i => i
  meanNonWhite := fun _ => 0
  simpleThresh := fun i _ => i
  morphClose := fun i _ => i
  morphOpen := fun i _ => i
  findContours := fun _ _ _ => []
  arcLength := fun _ => 0
  approxPolyDP := fun c _ => c
  minEnclosingCircle := fun _ => ((0, 0), 0)

/-- Color primitives on `Nat` whose sampling consumes the RNG state and whose
sampled cluster color depends on it — as `np.random.choice` on the global
numpy RNG followed by k-means does. -/
def cpNat : ColorPrims Nat Nat where
  solidPixelCount := fun i => i
  sampleKmeans := fun r _ => ([(((r % 256 : Nat) : Int), 0, 0)], r + 1)
  kmeansAll := fun _ => [(1, 2, 3)]

/-- A trivial instantiation of the PIL primitives, for concrete evaluation of
`create_embedded_svg`. -/
def libUnit : ImgLib Unit where
  size := fun _ => (1, 1)
  toRGBA := fun _ => ()
  resize := fun _ _ _ => ()
  newCanvas := fun _ _ => ()
  paste := fun i _ _ _ => i
  encodePng := fun _ => [77, 97, 110]

/-! ### Arithmetic lemmas for `create_embedded_svg` -/

theorem embedScale_nonneg (w h ts : Nat) : 0 ≤ embedScale w h ts :=
  le_min (by positivity) (by positivity)

theorem embedNewW_nonneg (w h ts : Nat) : 0 ≤ embedNewW w h ts := by
  have hq : 0 ≤ (w : ℚ) * embedScale w h ts :=
    mul_nonneg (by positivity) (embedScale_nonneg w h ts)
  unfold embedNewW pyIntQ
  rw [if_neg (not_lt.mpr hq)]
  exact Int.floor_nonneg.mpr hq

theorem embedNewH_nonneg (w h ts : Nat) : 0 ≤ embedNewH w h ts := by
  have hq : 0 ≤ (h : ℚ) * embedScale w h ts :=
    mul_nonneg (by positivity) (embedScale_nonneg w h ts)
  unfold embedNewH pyIntQ
  rw [if_neg (not_lt.mpr hq)]
  exact Int.floor_nonneg.mpr hq

theorem embedNewW_le (w h ts : Nat) (hw : 1 ≤ w) : embedNewW w h ts ≤ (ts : Int) := by
  have hw0 : (0 : ℚ) < (w : ℚ) := by exact_mod_cast Nat.lt_of_lt_of_le Nat.zero_lt_one hw
  have hle : (w : ℚ) * embedScale w h ts ≤ (ts : ℚ) := by
    calc (w : ℚ) * embedScale w h ts
        ≤ (w : ℚ) * ((ts : ℚ) / (w : ℚ)) :=
          mul_le_mul_of_nonneg_left (min_le_left _ _) (le_of_lt hw0)
      _ = (ts : ℚ) := mul_div_cancel₀ _ (ne_of_gt hw0)
  have hq : 0 ≤ (w : ℚ) * embedScale w h ts :=
    mul_nonneg (by positivity) (embedScale_nonneg w h ts)
  unfold embedNewW pyIntQ
  rw [if_neg (not_lt.mpr hq)]
  calc Int.floor ((w : ℚ) * embedScale w h ts) ≤ Int.floor ((ts : ℚ)) := Int.floor_le_floor hle
    _ = (ts : Int) := Int.floor_natCast ts

theorem embedNewH_le (w h ts : Nat) (hh : 1 ≤ h) : embedNewH w h ts ≤ (ts : Int) := by
  have hh0 : (0 : ℚ) < (h : ℚ) := by exact_mod_cast Nat.lt_of_lt_of_le Nat.zero_lt_one hh
  have hle : (h : ℚ) * embedScale w h ts ≤ (ts : ℚ) := by
    calc (h : ℚ) * embedScale w h ts
        ≤ (h : ℚ) * ((ts : ℚ) / (h : ℚ)) :=
          mul_le_mul_of_nonneg_left (min_le_right _ _) (le_of_lt hh0)
      _ = (ts : ℚ) := mul_div_cancel₀ _ (ne_of_gt hh0)
  have hq : 0 ≤ (h : ℚ) * embedScale w h ts :=
    mul_nonneg (by positivity) (embedScale_nonneg w h ts)
  unfold embedNewH pyIntQ
  rw [if_neg (not_lt.mpr hq)]
  calc Int.floor ((h : ℚ) * embedScale w h ts) ≤ Int.floor ((ts : ℚ)) := Int.floor_le_floor hle
    _ = (ts : Int) := Int.floor_natCast ts

/-- Claim C9 (implicit safety): for positive image dimensions and target size, the
resized dimensions stay within the target square, the centering offsets are
nonnegative, and the paste rectangle lies fully inside the canvas. -/
theorem c9_paste_in_bounds (w h ts : Nat) (hw : 1 ≤ w) (hh : 1 ≤ h) (_hts : 1 ≤ ts) :
    0 ≤ embedNewW w h ts ∧ 0 ≤ embedNewH w h ts ∧
    embedNewW w h ts ≤ (ts : Int) ∧ embedNewH w h ts ≤ (ts : Int) ∧
    0 ≤ embedX w h ts ∧ 0 ≤ embedY w h ts ∧
    embedX w h ts + embedNewW w h ts ≤ (ts : Int) ∧
    embedY w h ts + embedNewH w h ts ≤ (ts : Int) := by
  have hwn := embedNewW_nonneg w h ts
  have hhn := embedNewH_nonneg w h ts
  have hwl := embedNewW_le w h ts hw
  have hhl := embedNewH_le w h ts hh
  have hx0 : 0 ≤ embedX w h ts :=
    Int.fdiv_nonneg (by omega) (by norm_num)
  have hy0 : 0 ≤ embedY w h ts :=
    Int.fdiv_nonneg (by omega) (by norm_num)
  have hxle : embedX w h ts ≤ (ts : Int) - embedNewW w h ts := by
    unfold embedX
    rw [Int.fdiv_eq_ediv _ (by norm_num)]
    exact Int.ediv_le_self 2 (by omega)
  have hyle : embedY w h ts ≤ (ts : Int) - embedNewH w h ts := by
    unfold embedY
    rw [Int.fdiv_eq_ediv _ (by norm_num)]
    exact Int.ediv_le_self 2 (by omega)
  refine ⟨hwn, hhn, hwl, hhl, hx0, hy0, by omega, by omega⟩

/-- Witness for C9 at a concrete 300×200 image and the default target size. -/
theorem c9_paste_in_bounds_witness :
    (1 ≤ 300 ∧ 1 ≤ 200 ∧ 1 ≤ 512) ∧
    (0 ≤ embedNewW 300 200 512 ∧ 0 ≤ embedNewH 300 200 512 ∧
     embedNewW 300 200 512 ≤ (512 : Int) ∧ embedNewH 300 200 512 ≤ (512 : Int) ∧
     0 ≤ embedX 300 200 512 ∧ 0 ≤ embedY 300 200 512 ∧
     embedX 300 200 512 + embedNewW 300 200 512 ≤ (512 : Int) ∧
     embedY 300 200 512 + embedNewH 300 200 512 ≤ (512 : Int)) :=
  ⟨⟨by decide, by decide, by decide⟩,
   c9_paste_in_bounds 300 200 512 (by decide) (by decide) (by decide)⟩

/-! ### String-structure lemmas for the embedded SVG -/

theorem containsStr_append_mid (pre pat rest : String) :
    containsStr (pre ++ (pat ++ rest)) pat = true := by
  unfold containsStr
  have h : (pre ++ (pat ++ rest)).toList = pre.toList ++ pat.toList ++ rest.toList := by
    simp [String.toList, String.data_append]
  rw [h]
  exact containsSubL_append _ _ _

/-- The output of `create_embedded_svg` contains the base64 PNG data URI. -/
theorem embedded_svg_datauri {Img : Type} (lib : ImgLib Img) (img : Img) (ts : Nat) :
    containsStr (create_embedded_svg lib img ts) "data:image/png;base64," = true := by
  have hform : create_embedded_svg lib img ts =
      ("<?xml version=\"1.0\" encoding=\"UTF-8\"?>\n<svg width=\"" ++ toString ts ++ "\" height=\""
        ++ toString ts ++ "\" viewBox=\"0 0 " ++ toString ts ++ " " ++ toString ts
        ++ "\" \n     xmlns=\"http://www.w3.org/2000/svg\" xmlns:xlink=\"http://www.w3.org/1999/xlink\">\n  <image width=\""
        ++ toString ts ++ "\" height=\"" ++ toString ts ++ "\" \n         xlink:href=\"")
      ++ ("data:image/png;base64," ++
          (base64encode (lib.encodePng (embedCanvas lib img ts)) ++ "\"/>\n</svg>")) := by
    simp only [create_embedded_svg]
    rw [show ("\" \n         xlink:href=\"data:image/png;base64," : String) =
      "\" \n         xlink:href=\"" ++ "data:image/png;base64," from rfl]
    simp only [String.append_assoc]
  rw [hform]
  exact containsStr_append_mid _ _ _

/-- The output of `create_embedded_svg` has exactly four `<` characters — the
XML declaration, the `svg` open tag, the single `image` element, and the
`svg` close tag. -/
theorem embedded_svg_lt_count {Img : Type} (lib : ImgLib Img) (img : Img) (ts : Nat) :
    ((create_embedded_svg lib img ts).toList.count '<') = 4 := by
  have hts : ∀ n : Nat, (((toString n).data).count '<') = 0 := fun n =>
    List.count_eq_zero.mpr (natToString_no_lt n)
  have hdata : ((base64encode (lib.encodePng (embedCanvas lib img ts))).data.count '<') = 0 :=
    List.count_eq_zero.mpr (base64encode_no_lt _)
  simp only [create_embedded_svg, String.toList, String.data_append, List.count_append,
    hts, hdata]
  decide

/-- Claim C4: for every PNG that `create_embedded_svg` converts, the written SVG
is a `target_size × target_size` document containing a single image element
whose `xlink:href` is a base64 PNG data URI encoding the input image scaled by
`min(target_size/width, target_size/height)` — so both resized dimensions use
the same aspect-preserving factor — pasted centered (offsets
`(target_size − new_dim) // 2`) on a fresh transparent canvas. -/
theorem c4_embedded_svg_structure {Img : Type} (lib : ImgLib Img) (img : Img) (ts : Nat) :
    create_embedded_svg lib img ts =
      "<?xml version=\"1.0\" encoding=\"UTF-8\"?>\n<svg width=\"" ++ toString ts ++ "\" height=\""
        ++ toString ts ++ "\" viewBox=\"0 0 " ++ toString ts ++ " " ++ toString ts
        ++ "\" \n     xmlns=\"http://www.w3.org/2000/svg\" xmlns:xlink=\"http://www.w3.org/1999/xlink\">\n  <image width=\""
        ++ toString ts ++ "\" height=\"" ++ toString ts
        ++ "\" \n         xlink:href=\"data:image/png;base64,"
        ++ base64encode (lib.encodePng (lib.paste (lib.newCanvas ts ts)
             (lib.resize (lib.toRGBA img)
               (pyIntQ (((lib.size (lib.toRGBA img)).1 : ℚ) *
                 min ((ts : ℚ) / ((lib.size (lib.toRGBA img)).1 : ℚ))
                     ((ts : ℚ) / ((lib.size (lib.toRGBA img)).2 : ℚ))))
               (pyIntQ (((lib.size (lib.toRGBA img)).2 : ℚ) *
                 min ((ts : ℚ) / ((lib.size (lib.toRGBA img)).1 : ℚ))
                     ((ts : ℚ) / ((lib.size (lib.toRGBA img)).2 : ℚ)))))
             (((ts : Int) -
                embedNewW (lib.size (lib.toRGBA img)).1 (lib.size (lib.toRGBA img)).2 ts).fdiv 2)
             (((ts : Int) -
                embedNewH (lib.size (lib.toRGBA img)).1 (lib.size (lib.toRGBA img)).2 ts).fdiv 2)))
        ++ "\"/>\n</svg>"
    ∧ ((create_embedded_svg lib img ts).toList.count '<') = 4
    ∧ containsStr (create_embedded_svg lib img ts) "data:image/png;base64," = true :=
  ⟨rfl, embedded_svg_lt_count lib img ts, embedded_svg_datauri lib img ts⟩

/-- Claim C8: the repository has three standalone conversion scripts; two embed
the original PNG as a base64 data URI inside an SVG wrapper (the second of
them modelled from the spec, its file being absent from src/) and the third
synthesizes vector shapes: its output is either the SVG generated from the
detected shapes or the hand-coded fallback template, never an embedded
raster. -/
theorem c8_three_scripts :
    repoScripts.length = 3
    ∧ (repoScripts.filter (fun s => decide (s.2 = ScriptKind.embedB64))).length = 2
    ∧ (repoScripts.filter (fun s => decide (s.2 = ScriptKind.vectorize))).length = 1
    ∧ (∀ (Img : Type) (lib : ImgLib Img) (img : Img) (ts : Nat),
        containsStr (create_embedded_svg lib img ts) "data:image/png;base64," = true)
    ∧ (∀ (Img : Type) (lib : ImgLib Img) (tool : Option (Img → Img)) (img : Img) (ts : Nat),
        containsStr (create_traced_embedded_svg lib tool img ts) "data:image/png;base64," = true)
    ∧ (∀ (Img Rng : Type) (cv : CV Img) (cp : ColorPrims Img Rng) (rng : Rng) (img : Img)
        (stem : String),
        (create_vector_svg cv cp rng img stem).1.svg = vsvgGenerated cv cp rng img
        ∨ (create_vector_svg cv cp rng img stem).1.svg =
            fallbackSvgContent stem (vsvgColors cv cp rng img).1) := by
  refine ⟨rfl, rfl, rfl, fun Img lib img ts => embedded_svg_datauri lib img ts,
    fun Img lib tool img ts => ?_, fun Img Rng cv cp rng img stem => ?_⟩
  · cases tool with
    | none => exact embedded_svg_datauri lib img ts
    | some t => exact embedded_svg_datauri lib (t img) ts
  · simp only [create_vector_svg, vsvgAssemble]
    split
    · right; rfl
    · split
      · left; rfl
      · right; rfl

/-- Discriminator: is the classification a circle? -/
def ShapeKind.isCircle : ShapeKind → Bool
  | ShapeKind.circle _ _ => true
  | _ => false

/-- Discriminator: is the classification a rectangle? -/
def ShapeKind.isRectangle : ShapeKind → Bool
  | ShapeKind.rectangle _ => true
  | _ => false

/-- Discriminator: is the classification a plain polygon? -/
def ShapeKind.isPolygon : ShapeKind → Bool
  | ShapeKind.polygon => true
  | _ => false

/-- Characterization of `classifyContour` on a contour that passes the area and
perimeter guards. -/
theorem classifyContour_spec {Img : Type} (cv : CV Img) (c : Contour)
    (h1 : ¬ contourAreaQ c < 100) (h2 : ¬ cv.arcLength c = 0) :
    ∃ s, classifyContour cv c = some s ∧
      s.contour = c ∧ s.area = contourAreaQ c ∧ s.perimeter = cv.arcLength c ∧
      s.vertices = (cv.approxPolyDP c ((0.02 : ℚ) * cv.arcLength c)).length ∧
      (s.kind.isCircle = true ↔
        (8 < s.vertices ∧ (0.7 : ℚ) < 4 * piF64 * s.area / (s.perimeter * s.perimeter))) ∧
      (s.kind.isRectangle = true ↔
        (s.vertices = 4 ∧
          (0.8 : ℚ) < s.area / (((boundingRect c).w * (boundingRect c).h : Int) : ℚ))) ∧
      (s.kind.isPolygon = true ↔
        (¬(8 < s.vertices ∧ (0.7 : ℚ) < 4 * piF64 * s.area / (s.perimeter * s.perimeter)) ∧
         ¬(s.vertices = 4 ∧
            (0.8 : ℚ) < s.area / (((boundingRect c).w * (boundingRect c).h : Int) : ℚ)))) ∧
      (s.kind.isCircle = true ∨ s.kind.isRectangle = true ∨ s.kind.isPolygon = true) := by
  simp only [classifyContour]
  rw [if_neg h1, if_neg h2]
  refine ⟨_, rfl, rfl, rfl, rfl, rfl, ?_, ?_, ?_, ?_⟩
  · dsimp only
    split
    · rename_i h8
      split
      · rename_i hc
        exact ⟨fun _ => ⟨h8, hc⟩, fun _ => rfl⟩
      · rename_i hc
        exact ⟨fun h => Bool.noConfusion h, fun h => absurd h.2 hc⟩
    · rename_i h8
      split
      · split
        · exact ⟨fun h => Bool.noConfusion h, fun h => absurd h.1 h8⟩
        · exact ⟨fun h => Bool.noConfusion h, fun h => absurd h.1 h8⟩
      · exact ⟨fun h => Bool.noConfusion h, fun h => absurd h.1 h8⟩
  · dsimp only
    split
    · rename_i h8
      split
      · exact ⟨fun h => Bool.noConfusion h, fun h => absurd h.1 (by omega)⟩
      · exact ⟨fun h => Bool.noConfusion h, fun h => absurd h.1 (by omega)⟩
    · rename_i h8
      split
      · rename_i h4
        split
        · rename_i hr
          exact ⟨fun _ => ⟨h4, hr⟩, fun _ => rfl⟩
        · rename_i hr
          exact ⟨fun h => Bool.noConfusion h, fun h => absurd h.2 hr⟩
      · rename_i h4
        exact ⟨fun h => Bool.noConfusion h, fun h => absurd h.1 h4⟩
  · dsimp only
    split
    · rename_i h8
      split
      · rename_i hc
        exact ⟨fun h => Bool.noConfusion h, fun h => absurd ⟨h8, hc⟩ h.1⟩
      · rename_i hc
        exact ⟨fun _ => ⟨fun hh => hc hh.2, fun hh => absurd hh.1 (by omega)⟩, fun _ => rfl⟩
    · rename_i h8
      split
      · rename_i h4
        split
        · rename_i hr
          exact ⟨fun h => Bool.noConfusion h, fun h => absurd ⟨h4, hr⟩ h.2⟩
        · rename_i hr
          exact ⟨fun _ => ⟨fun hh => h8 hh.1, fun hh => hr hh.2⟩, fun _ => rfl⟩
      · rename_i h4
        exact ⟨fun _ => ⟨fun hh => h8 hh.1, fun hh => h4 hh.1⟩, fun _ => rfl⟩
  · dsimp only
    split
    · split
      · exact Or.inl rfl
      · exact Or.inr (Or.inr rfl)
    · split
      · split
        · exact Or.inr (Or.inl rfl)
        · exact Or.inr (Or.inr rfl)
      · exact Or.inr (Or.inr rfl)

/-- Claim C5: `detect_shapes` classifies every contour with area at least 100 and
nonzero perimeter as exactly one of circle / rectangle / polygon: a circle
when the ε = 2%-of-perimeter Douglas–Peucker approximation has more than 8
vertices and the circularity `4·π·area/perimeter²` exceeds 0.7, a rectangle
when the approximation has exactly 4 vertices and the area exceeds 0.8 of the
bounding-rectangle area, and a polygon otherwise. -/
theorem c5_shape_classification {Img : Type} (cv : CV Img) (cs : List Contour) (c : Contour)
    (hc : c ∈ cs) (h1 : ¬ contourAreaQ c < 100) (h2 : ¬ cv.arcLength c = 0) :
    ∃ s ∈ detect_shapes cv cs,
      s.contour = c ∧ s.area = contourAreaQ c ∧ s.perimeter = cv.arcLength c ∧
      s.vertices = (cv.approxPolyDP c ((0.02 : ℚ) * cv.arcLength c)).length ∧
      (s.kind.isCircle = true ↔
        (8 < s.vertices ∧ (0.7 : ℚ) < 4 * piF64 * s.area / (s.perimeter * s.perimeter))) ∧
      (s.kind.isRectangle = true ↔
        (s.vertices = 4 ∧
          (0.8 : ℚ) < s.area / (((boundingRect c).w * (boundingRect c).h : Int) : ℚ))) ∧
      (s.kind.isPolygon = true ↔
        (¬(8 < s.vertices ∧ (0.7 : ℚ) < 4 * piF64 * s.area / (s.perimeter * s.perimeter)) ∧
         ¬(s.vertices = 4 ∧
            (0.8 : ℚ) < s.area / (((boundingRect c).w * (boundingRect c).h : Int) : ℚ)))) ∧
      (s.kind.isCircle = true ∨ s.kind.isRectangle = true ∨ s.kind.isPolygon = true) := by
  obtain ⟨s, hsome, hprops⟩ := classifyContour_spec cv c h1 h2
  exact ⟨s, List.mem_filterMap.mpr ⟨c, hc, hsome⟩, hprops⟩

/-- Witness for C5: the ten-vertex square-ish contour `cW` (area 400) under the
concrete primitives `cvShape` is classified, and as a circle. -/
theorem c5_shape_classification_witness :
    cW ∈ [cW] ∧ (¬ contourAreaQ cW < 100) ∧ (¬ cvShape.arcLength cW = 0) ∧
    (∃ s ∈ detect_shapes cvShape [cW],
      s.contour = cW ∧ s.area = contourAreaQ cW ∧ s.perimeter = cvShape.arcLength cW ∧
      s.vertices = (cvShape.approxPolyDP cW ((0.02 : ℚ) * cvShape.arcLength cW)).length ∧
      (s.kind.isCircle = true ↔
        (8 < s.vertices ∧ (0.7 : ℚ) < 4 * piF64 * s.area / (s.perimeter * s.perimeter))) ∧
      (s.kind.isRectangle = true ↔
        (s.vertices = 4 ∧
          (0.8 : ℚ) < s.area / (((boundingRect cW).w * (boundingRect cW).h : Int) : ℚ))) ∧
      (s.kind.isPolygon = true ↔
        (¬(8 < s.vertices ∧ (0.7 : ℚ) < 4 * piF64 * s.area / (s.perimeter * s.perimeter)) ∧
         ¬(s.vertices = 4 ∧
            (0.8 : ℚ) < s.area / (((boundingRect cW).w * (boundingRect cW).h : Int) : ℚ)))) ∧
      (s.kind.isCircle = true ∨ s.kind.isRectangle = true ∨ s.kind.isPolygon = true)) :=
  ⟨List.mem_cons_self _ _,
   by norm_num [contourAreaQ, shoelace, cyclePairs, cW],
   by norm_num [cvShape],
   c5_shape_classification cvShape [cW] cW (List.mem_cons_self _ _)
     (by norm_num [contourAreaQ, shoelace, cyclePairs, cW]) (by norm_num [cvShape])⟩

/-- Claim C6: after deduplication no two retained contours have identical point
sequences (dedup keys the flattened coordinates and keeps first occurrences in
order); the retained contours are sorted by area, descending, and truncated to
at most the 20 largest before shape detection (`vsvgFinal` is exactly the list
handed to `detect_shapes` in `create_vector_svg`). -/
theorem c6_dedup_sort_truncate (cs : List Contour) :
    List.Pairwise (fun a b => flattenC a ≠ flattenC b) (vsvgFinal cs) ∧
    List.Pairwise (fun a b => a ≠ b) (vsvgFinal cs) ∧
    List.Pairwise (fun a b => contourAreaQ b ≤ contourAreaQ a) (vsvgFinal cs) ∧
    (vsvgFinal cs).length ≤ 20 ∧
    List.Sublist (dedupC cs) cs ∧
    (∀ c ∈ cs, ∃ c' ∈ dedupC cs, flattenC c' = flattenC c) ∧
    (∀ c' ∈ vsvgFinal cs, ∀ c ∈ (sortDescBy contourAreaQ (dedupC cs)).drop 20,
      contourAreaQ c ≤ contourAreaQ c') := by
  have hperm := sortDescBy_perm contourAreaQ (dedupC cs)
  have hsymm : ∀ {x y : Contour}, flattenC x ≠ flattenC y → flattenC y ≠ flattenC x :=
    fun h e => h e.symm
  have hps : List.Pairwise (fun a b => flattenC a ≠ flattenC b)
      (sortDescBy contourAreaQ (dedupC cs)) :=
    (List.Perm.pairwise_iff hsymm hperm).mpr (dedupC_pairwise cs)
  have hFlat : List.Pairwise (fun a b => flattenC a ≠ flattenC b) (vsvgFinal cs) :=
    List.Pairwise.sublist (List.take_sublist 20 _) hps
  have hSorted : List.Pairwise (fun a b => contourAreaQ b ≤ contourAreaQ a)
      (sortDescBy contourAreaQ (dedupC cs)) := sortDescBy_pairwise contourAreaQ (dedupC cs)
  refine ⟨hFlat, ?_, ?_, ?_, dedupC_sublist cs, dedupC_covers cs, ?_⟩
  · exact hFlat.imp (fun h e => h (by rw [e]))
  · exact List.Pairwise.sublist (List.take_sublist 20 _) hSorted
  · have : (vsvgFinal cs).length = min 20 (sortDescBy contourAreaQ (dedupC cs)).length := by
      simp [vsvgFinal, List.length_take]
    omega
  · intro c' hc' c hc
    have hsplit : List.Pairwise (fun a b => contourAreaQ b ≤ contourAreaQ a)
        ((sortDescBy contourAreaQ (dedupC cs)).take 20 ++
         (sortDescBy contourAreaQ (dedupC cs)).drop 20) := by
      rw [List.take_append_drop]
      exact hSorted
    exact (List.pairwise_append.mp hsplit).2.2 c' hc' c hc

/-- A concrete contour list with a duplicate, for the C6 witness. -/
def csW6 : List Contour :=
  [[(0, 0), (10, 0), (10, 10), (0, 10)],
   [(0, 0), (10, 0), (10, 10), (0, 10)],
   [(0, 0), (3, 0), (3, 3), (0, 3)]]

/-- The duplicated contour of `csW6`. -/
def cW6 : Contour := [(0, 0), (10, 0), (10, 10), (0, 10)]

/-- Witness for C6: on a list with a duplicate contour, the first occurrence is
retained (its flattened coordinates are represented in the dedup output). -/
theorem c6_dedup_sort_truncate_witness :
    cW6 ∈ csW6 ∧ (∃ c' ∈ dedupC csW6, flattenC c' = flattenC cW6) :=
  ⟨by decide, (c6_dedup_sort_truncate csW6).2.2.2.2.2.1 cW6 (by decide)⟩

/-! ### Helper lemmas for the small-contour / empty-SVG fallback chain -/

/-- Every shape kept by `detect_shapes` records its contour's area, which is at
least 100. -/
theorem detect_shapes_area_ge {Img : Type} (cv : CV Img) (cs : List Contour) (s : ShapeInfo)
    (hs : s ∈ detect_shapes cv cs) : 100 ≤ s.area ∧ s.area = contourAreaQ s.contour := by
  obtain ⟨c, _, hsome⟩ := List.mem_filterMap.mp hs
  simp only [classifyContour] at hsome
  split at hsome
  · exact Option.noConfusion hsome
  · split at hsome
    · exact Option.noConfusion hsome
    · rename_i hlt _
      injection hsome with he
      subst he
      exact ⟨le_of_not_lt hlt, rfl⟩

/-- Lemma: `detect_shapes` drops every contour whose area is below 100. -/
theorem detect_shapes_all_small {Img : Type} (cv : CV Img) (cs : List Contour)
    (h : ∀ c ∈ cs, contourAreaQ c < 100) : detect_shapes cv cs = [] := by
  refine List.filterMap_eq_nil_iff.mpr ?_
  intro c hc
  simp only [classifyContour]
  rw [if_pos (h c hc)]

/-- The empty string is rejected by `validate_svg_content`. -/
theorem validate_svg_empty : validate_svg_content "" = false := by decide

/-- Members of the final truncated contour list come from the input list. -/
theorem vsvgFinal_subset (cs : List Contour) (c : Contour) (hc : c ∈ vsvgFinal cs) :
    c ∈ cs := by
  have h1 : c ∈ sortDescBy contourAreaQ (dedupC cs) :=
    (List.take_sublist 20 _).subset hc
  have h2 : c ∈ dedupC cs := (sortDescBy_perm contourAreaQ (dedupC cs)).mem_iff.mp h1
  exact (dedupC_sublist cs).subset h2

/-- Claim C10: every shape returned by `detect_shapes` has area at least 100,
although `create_vector_svg` admits contours with area just above
`min(0.0005·image_area, 5)` (= 5 at the fixed 512×512 size); consequently, when
every surviving contour has area below 100, `detect_shapes` returns the empty
list, `generate_svg_from_shapes` returns the empty string, validation rejects
it, and the conversion takes the fallback path. -/
theorem c10_small_contours_fallback :
    (∀ (Img : Type) (cv : CV Img) (cs : List Contour) (s : ShapeInfo),
        s ∈ detect_shapes cv cs → 100 ≤ s.area ∧ s.area = contourAreaQ s.contour)
    ∧ (∀ (Img : Type) (cv : CV Img) (cs : List Contour),
        (∀ c ∈ cs, contourAreaQ c < 100) → detect_shapes cv cs = [])
    ∧ (∀ colors : List Color, generate_svg_from_shapes [] colors = "")
    ∧ validate_svg_content "" = false
    ∧ vsvgMinArea = min ((0.0005 : ℚ) * (512 * 512)) 5
    ∧ (∀ (Img Rng : Type) (cv : CV Img) (cp : ColorPrims Img Rng) (rng : Rng) (img : Img)
        (stem : String),
        (∀ c ∈ vsvgContours cv img, contourAreaQ c < 100) →
        (create_vector_svg cv cp rng img stem).1.usedFallback = true ∧
        (create_vector_svg cv cp rng img stem).1.svg =
          fallbackSvgContent stem (vsvgColors cv cp rng img).1) := by
  refine ⟨fun Img cv cs s hs => detect_shapes_area_ge cv cs s hs,
    fun Img cv cs h => detect_shapes_all_small cv cs h,
    fun colors => rfl, validate_svg_empty, by norm_num [vsvgMinArea, min_def, max_def],
    fun Img Rng cv cp rng img stem h => ?_⟩
  have hdet : detect_shapes cv (vsvgFinal (vsvgContours cv img)) = [] :=
    detect_shapes_all_small cv _ (fun c hc => h c (vsvgFinal_subset _ c hc))
  have hgen : vsvgGenerated cv cp rng img = "" := by
    simp only [vsvgGenerated, hdet]
    rfl
  simp only [create_vector_svg, vsvgAssemble]
  split
  · exact ⟨rfl, rfl⟩
  · rw [hgen, validate_svg_empty]
    exact ⟨rfl, rfl⟩

/-- Witness for C10: a 2×2 square contour (area 4) is discarded by
`detect_shapes`. -/
theorem c10_small_contours_fallback_witness :
    (∀ c ∈ [[((0 : Int), (0 : Int)), (2, 0), (2, 2), (0, 2)]], contourAreaQ c < 100) ∧
    detect_shapes cvUnit [[((0 : Int), (0 : Int)), (2, 0), (2, 2), (0, 2)]] = [] := by
  have h : ∀ c ∈ [[((0 : Int), (0 : Int)), (2, 0), (2, 2), (0, 2)]], contourAreaQ c < 100 := by
    intro c hc
    rcases List.mem_singleton.mp hc with rfl
    norm_num [contourAreaQ, shoelace, cyclePairs]
  exact ⟨h, c10_small_contours_fallback.2.1 Unit cvUnit _ h⟩

/-- Claim C1: whenever contour detection yields no valid contours after all
detection attempts (standard and recovery), or the generated SVG fails
validation, `create_vector_svg` writes the hand-coded fallback template of
`create_simple_fallback_svg` (chosen by keywords in the icon file name, inside
`fallbackSvgContent`) and returns that function's successful result instead of
raising or returning failure. -/
theorem c1_fallback_on_failure {Img Rng : Type} (cv : CV Img) (cp : ColorPrims Img Rng)
    (rng : Rng) (img : Img) (stem : String)
    (h : vsvgContours cv img = [] ∨
         validate_svg_content (vsvgGenerated cv cp rng img) = false) :
    (create_vector_svg cv cp rng img stem).1.svg =
      fallbackSvgContent stem (vsvgColors cv cp rng img).1
    ∧ (create_vector_svg cv cp rng img stem).1.usedFallback = true
    ∧ (create_vector_svg cv cp rng img stem).2 = (vsvgColors cv cp rng img).2 := by
  simp only [create_vector_svg, vsvgAssemble]
  split
  · exact ⟨rfl, rfl, rfl⟩
  · rename_i hne
    rcases h with h | h
    · exact absurd (by rw [h]; rfl) hne
    · rw [if_neg (by simp [h])]
      exact ⟨rfl, rfl, rfl⟩

/-- Witness for C1: with the trivial primitives no contour is ever found, and
the conversion writes exactly the fallback template. -/
theorem c1_fallback_on_failure_witness :
    (vsvgContours cvUnit () = [] ∨
      validate_svg_content (vsvgGenerated cvUnit cpUnit 0 ()) = false) ∧
    ((create_vector_svg cvUnit cpUnit 0 () "icon").1.svg =
       fallbackSvgContent "icon" (vsvgColors cvUnit cpUnit 0 ()).1
     ∧ (create_vector_svg cvUnit cpUnit 0 () "icon").1.usedFallback = true
     ∧ (create_vector_svg cvUnit cpUnit 0 () "icon").2 = (vsvgColors cvUnit cpUnit 0 ()).2) :=
  ⟨Or.inl (by decide),
   c1_fallback_on_failure cvUnit cpUnit 0 () "icon" (Or.inl (by decide))⟩

/-- Claim C2: the vectorization pipeline stages run in the fixed order
preprocessing → thresholding selection → contour extraction → deduplication →
shape classification → SVG synthesis → validation → write/fallback; validation
always precedes the write of the generated SVG, and fallback is reached
exactly when no contour survived or validation failed. -/
theorem c2_pipeline_order {Img Rng : Type} (cv : CV Img) (cp : ColorPrims Img Rng)
    (rng : Rng) (img : Img) (stem : String) :
    ((create_vector_svg cv cp rng img stem).1.trace =
      if (vsvgContours cv img).isEmpty then
        [Stage.preprocessing, Stage.thresholding, Stage.extraction, Stage.dedupStage,
         Stage.fallbackOut]
      else if validate_svg_content (vsvgGenerated cv cp rng img) then
        [Stage.preprocessing, Stage.thresholding, Stage.extraction, Stage.dedupStage,
         Stage.classification, Stage.synthesis, Stage.validation, Stage.writeOut]
      else
        [Stage.preprocessing, Stage.thresholding, Stage.extraction, Stage.dedupStage,
         Stage.classification, Stage.synthesis, Stage.validation, Stage.fallbackOut])
    ∧ ((create_vector_svg cv cp rng img stem).1.usedFallback = false →
        (create_vector_svg cv cp rng img stem).1.svg = vsvgGenerated cv cp rng img ∧
        validate_svg_content ((create_vector_svg cv cp rng img stem).1.svg) = true ∧
        (create_vector_svg cv cp rng img stem).1.trace =
          [Stage.preprocessing, Stage.thresholding, Stage.extraction, Stage.dedupStage,
           Stage.classification, Stage.synthesis, Stage.validation, Stage.writeOut])
    ∧ ((create_vector_svg cv cp rng img stem).1.usedFallback = true ↔
        (vsvgContours cv img = [] ∨
         validate_svg_content (vsvgGenerated cv cp rng img) = false)) := by
  simp only [create_vector_svg, vsvgAssemble]
  split
  · rename_i hemp
    refine ⟨rfl, fun hfb => Bool.noConfusion hfb, ?_⟩
    exact ⟨fun _ => Or.inl (List.isEmpty_iff.mp hemp), fun _ => rfl⟩
  · rename_i hne
    split
    · rename_i hval
      refine ⟨rfl, fun _ => ⟨rfl, hval, rfl⟩, ?_⟩
      constructor
      · intro hfb; exact Bool.noConfusion hfb
      · intro hcase
        rcases hcase with hcase | hcase
        · exact absurd (by rw [hcase]; rfl) hne
        · rw [hcase] at hval; exact Bool.noConfusion hval
    · rename_i hval
      refine ⟨rfl, fun hfb => Bool.noConfusion hfb, ?_⟩
      exact ⟨fun _ => Or.inr (Bool.eq_false_iff.mpr hval), fun _ => rfl⟩

/-- Witness for C2 at the trivial primitives: the fallback flag is set and the
claimed fallback condition is derived by applying the theorem. -/
theorem c2_pipeline_order_witness :
    (create_vector_svg cvUnit cpUnit 0 () "x").1.usedFallback = true ∧
    (vsvgContours cvUnit () = [] ∨
      validate_svg_content (vsvgGenerated cvUnit cpUnit 0 ()) = false) :=
  ⟨by decide, (c2_pipeline_order cvUnit cpUnit 0 () "x").2.2.mp (by decide)⟩

/-- The candidate-evaluation step as the claim words it: a candidate
binarization evaluated under one contour-retrieval mode, counting the contours
with area greater than 1.  (Refinement comparison definition, following the
claim's wording; compare `addThreshold`, translated from the source.) -/
def claimedEval {Img : Type} (cv : CV Img) (b : Img) (m : RetrMode) : ThreshEntry Img :=
  let found := (cv.findContours b m ChainApprox.simple).filter
    (fun c => decide (1 < contourAreaQ c))
  ⟨b, found.length, found⟩

/-- The candidate binarizations as the claim lists them: adaptive Gaussian at
block sizes 11, 21, 31; Otsu normal and inverted at Gaussian blur sizes 0, 3,
5; Canny edges with dilation at threshold pairs (30,100), (50,150), (70,200);
simple thresholding at five offsets around the mean of the non-white pixels.
(Refinement comparison definition, following the claim's wording.) -/
def claimedBinaries {Img : Type} (cv : CV Img) (f : Img) : List Img :=
  ([11, 21, 31].map (fun bs => cv.adaptiveGaussian f bs))
  ++ ([0, 3, 5].flatMap (fun blur =>
        let blurred := if 0 < blur then cv.gaussianBlur f blur else f
        [cv.otsu blurred false, cv.otsu blurred true]))
  ++ ([((30 : Int), (100 : Int)), (50, 150), (70, 200)].map
        (fun p => cv.dilate2 (cv.canny f p.1 p.2)))
  ++ ([(-40 : Int), -20, 0, 20, 40].map (fun off =>
        cv.simpleThresh f (max 1 (min 254 (cv.meanNonWhite f + (off : ℚ))))))

/-- All candidate entries as the claim describes them: every claimed
binarization evaluated under the three retrieval modes. -/
def claimedCandidates {Img : Type} (cv : CV Img) (f : Img) : List (ThreshEntry Img) :=
  (claimedBinaries cv f).flatMap (fun b =>
    [RetrMode.outer, RetrMode.list, RetrMode.tree].map (fun m => claimedEval cv b m))

/-- Claim C3: `preprocess_image` generates exactly the claimed candidate
binarizations, evaluates each under the external/list/tree retrieval modes by
counting contours of area above 1, and selects a candidate entry whose count
is maximal over all candidates. -/
theorem c3_threshold_selection {Img : Type} (cv : CV Img) (f : Img) :
    threshCandidates cv f = claimedCandidates cv f
    ∧ (threshCandidates cv f).length = 51
    ∧ bestThreshold cv f ∈ threshCandidates cv f
    ∧ (∀ e ∈ threshCandidates cv f, e.count ≤ (bestThreshold cv f).count) := by
  have hlen : (threshCandidates cv f).length = 51 := rfl
  refine ⟨rfl, hlen, ?_, ?_⟩
  · have hperm := sortDescBy_perm (fun e : ThreshEntry Img => e.count) (threshCandidates cv f)
    cases hs : sortDescBy (fun e : ThreshEntry Img => e.count) (threshCandidates cv f) with
    | nil =>
      exfalso
      have hl := hperm.length_eq
      rw [hs, hlen] at hl
      exact absurd hl.symm (by norm_num)
    | cons hd tl =>
      have hmem : hd ∈ sortDescBy (fun e : ThreshEntry Img => e.count) (threshCandidates cv f) := by
        rw [hs]; exact List.mem_cons_self _ _
      have : bestThreshold cv f = hd := by
        simp [bestThreshold, hs]
      rw [this]
      exact hperm.mem_iff.mp hmem
  · intro e he
    exact sortDescBy_headD_max (fun e : ThreshEntry Img => e.count) (threshCandidates cv f)
      ⟨f, 0, []⟩ e he

/-- Witness for C3: the selected entry is itself a member of the candidate
list, so its count bounds itself; the membership hypothesis of the maximality
conjunct is discharged by the theorem's own membership conjunct. -/
theorem c3_threshold_selection_witness :
    (bestThreshold cvUnit ()).count ≤ (bestThreshold cvUnit ()).count :=
  (c3_threshold_selection cvUnit ()).2.2.2 (bestThreshold cvUnit ())
    (c3_threshold_selection cvUnit ()).2.2.1

/-- When an image has at most 10000 opaque pixels after resizing, the color
extraction never consults the RNG: the conversion result is independent of the
RNG state and the state is returned unchanged. -/
theorem vsvgAssemble_fst_colors {Img Rng : Type} (cv : CV Img) (img : Img) (stem : String)
    (cRes cRes' : List Color × Rng) (svgC : String) (h : cRes.1 = cRes'.1) :
    (vsvgAssemble cv img stem cRes svgC).1 = (vsvgAssemble cv img stem cRes' svgC).1 := by
  simp only [vsvgAssemble, h]
  split
  · rfl
  · split <;> rfl

theorem vsvgAssemble_snd {Img Rng : Type} (cv : CV Img) (img : Img) (stem : String)
    (cRes : List Color × Rng) (svgC : String) :
    (vsvgAssemble cv img stem cRes svgC).2 = cRes.2 := by
  simp only [vsvgAssemble]
  split
  · rfl
  · split <;> rfl

theorem create_vector_svg_rng_indep {Img Rng : Type} (cv : CV Img) (cp : ColorPrims Img Rng)
    (img : Img) (stem : String)
    (h : cp.solidPixelCount (vsvgImgArr cv img) ≤ 10000) (rng rng' : Rng) :
    (create_vector_svg cv cp rng img stem).1 = (create_vector_svg cv cp rng' img stem).1
    ∧ (create_vector_svg cv cp rng img stem).2 = rng := by
  have h1 : vsvgColors cv cp rng img = ((vsvgColors cv cp rng' img).1, rng) := by
    simp only [vsvgColors, extract_dominant_colors, if_neg (not_lt.mpr h)]
    split <;> rfl
  have hcols : (vsvgColors cv cp rng img).1 = (vsvgColors cv cp rng' img).1 := by
    rw [h1]
  have h2 : (vsvgColors cv cp rng img).2 = rng := by
    rw [h1]
  have hg : vsvgGenerated cv cp rng img = vsvgGenerated cv cp rng' img := by
    simp only [vsvgGenerated, hcols]
  constructor
  · show (vsvgAssemble cv img stem (vsvgColors cv cp rng img) (vsvgGenerated cv cp rng img)).1 =
      (vsvgAssemble cv img stem (vsvgColors cv cp rng' img) (vsvgGenerated cv cp rng' img)).1
    rw [hg]
    exact vsvgAssemble_fst_colors cv img stem _ _ _ hcols
  · show (vsvgAssemble cv img stem (vsvgColors cv cp rng img) (vsvgGenerated cv cp rng img)).2 = rng
    rw [vsvgAssemble_snd]
    exact h2

/-- Claim C7, amended: the batch loop threads the global numpy RNG state through
the iterations; when every image in the directory has at most 10000 opaque
pixels after resizing, the RNG is never consumed, and the output written for
each image is a function of that image (and its file stem) alone — identical
across runs and regardless of which other images are present or in which
order the loop visits them. -/
theorem c7_noninterference_bounded {Img Rng : Type} (cv : CV Img) (cp : ColorPrims Img Rng)
    (files : List (String × Img))
    (h : ∀ f ∈ files, cp.solidPixelCount (vsvgImgArr cv f.2) ≤ 10000) (rng rng' : Rng) :
    (convert_icons cv cp rng files).1 = (convert_icons cv cp rng' files).1
    ∧ (convert_icons cv cp rng files).2 = rng
    ∧ (convert_icons cv cp rng files).1 =
        files.map (fun f => (f.1, (create_vector_svg cv cp rng f.2 f.1).1)) := by
  induction files generalizing rng rng' with
  | nil => exact ⟨rfl, rfl, rfl⟩
  | cons f rest ih =>
    have hf : cp.solidPixelCount (vsvgImgArr cv f.2) ≤ 10000 :=
      h f (List.mem_cons_self _ _)
    have hrest : ∀ g ∈ rest, cp.solidPixelCount (vsvgImgArr cv g.2) ≤ 10000 :=
      fun g hg => h g (List.mem_cons_of_mem _ hg)
    have hhead := create_vector_svg_rng_indep cv cp f.2 f.1 hf rng rng'
    have hstate : (create_vector_svg cv cp rng f.2 f.1).2 = rng :=
      hhead.2
    have hstate' : (create_vector_svg cv cp rng' f.2 f.1).2 = rng' :=
      (create_vector_svg_rng_indep cv cp f.2 f.1 hf rng' rng).2
    have ihr := ih hrest rng rng'
    refine ⟨?_, ?_, ?_⟩
    · simp only [convert_icons, hstate, hstate']
      rw [hhead.1, ihr.1]
    · simp only [convert_icons, hstate]
      exact (ih hrest rng rng').2.1
    · simp only [convert_icons, hstate, List.map_cons]
      rw [ihr.2.2]

/-- Witness for C7's amended statement: a single small image, two different
initial RNG states. -/
theorem c7_noninterference_bounded_witness :
    (∀ f ∈ [("a", (5 : Nat))], cpNat.solidPixelCount (vsvgImgArr cvNat f.2) ≤ 10000) ∧
    ((convert_icons cvNat cpNat 7 [("a", (5 : Nat))]).1 =
       (convert_icons cvNat cpNat 99 [("a", (5 : Nat))]).1
     ∧ (convert_icons cvNat cpNat 7 [("a", (5 : Nat))]).2 = 7
     ∧ (convert_icons cvNat cpNat 7 [("a", (5 : Nat))]).1 =
         [("a", (5 : Nat))].map
           (fun f => (f.1, (create_vector_svg cvNat cpNat 7 f.2 f.1).1))) :=
  ⟨by decide, c7_noninterference_bounded cvNat cpNat [("a", 5)] (by decide) 7 99⟩

set_option maxRecDepth 4096 in
/-- Counterexample to C7 as stated: with more than 10000 opaque pixels the
color sampling consumes the global RNG state, so the SVG written for the same
image file `"a"` differs depending on whether another large image precedes it
in the directory. -/
theorem c7_counterexample :
    ¬ (((convert_icons cvNat cpNat 0 [("b", 20000), ("a", 20000)]).1.getD 1
          ("a", ⟨"", false, []⟩)).2.svg =
        ((convert_icons cvNat cpNat 0 [("a", 20000)]).1.getD 0
          ("a", ⟨"", false, []⟩)).2.svg) := by
  decide

end IconConv
